import Mathlib

/-!
Shallow embedding of the NL-Connector delivery pipeline (src/app/connector.py):
row validation, batch grouping, artifact writing, retried delivery, archival,
quarantine and status reconciliation, plus the orchestrating run.
Filesystem and remote-store effects are modelled by explicit traces and
success/failure oracles; machine behaviour (string length, int parsing) follows
the Python semantics the connector relies on.
-/

/-- A loosely typed field value as fetched from the remote queue store:
either a string or an integer (the two shapes the connector manipulates). -/
inductive Val where
  | s (v : String)
  | i (v : Int)
deriving DecidableEq, Repr, Inhabited

/-- Python `str()` applied to a field value. -/
def pyStr : Val → String
  | .s v => v
  | .i n => toString n

/-- Decimal digits to a natural number. -/
def digitsToNat (l : List Char) : Nat :=
  l.foldl (fun acc c => acc * 10 + (c.toNat - 48)) 0

/-- Python `int()` applied to a string: optional surrounding whitespace,
optional sign, then a non-empty digit run; anything else raises. -/
def parseIntStr (str : String) : Option Int :=
  match str.trim.data with
  | '-' :: rest =>
      if !rest.isEmpty && rest.all Char.isDigit then some (-(digitsToNat rest : Int)) else none
  | '+' :: rest =>
      if !rest.isEmpty && rest.all Char.isDigit then some (digitsToNat rest : Int) else none
  | l =>
      if !l.isEmpty && l.all Char.isDigit then some (digitsToNat l : Int) else none

/-- Python `int()` applied to a field value (`int` of an int is itself). -/
def pyInt : Val → Option Int
  | .i n => some n
  | .s v => parseIntStr v

/-- Python truthiness of an optional field value (`None`, `""` and `0` are falsy). -/
def truthy : Option Val → Bool
  | none => false
  | some (.s v) => !(v == "")
  | some (.i n) => !(n == 0)

/-- A fetched queue row. `none` models a key that is absent or null in the
remote record; the connector only ever reads these keys. -/
structure Row where
  id : Option Val := none
  batch_id : Option Val := none
  site : Option Val := none
  template_name : Option Val := none
  language : Option Val := none
  product_name : Option Val := none
  allergens_short : Option Val := none
  qty : Option Val := none
  status : Option Val := none
  error_reason : Option Val := none
deriving DecidableEq, Repr, Inhabited

/-- Dictionary-style lookup `row[key]` for the keys the connector reads. -/
def Row.get (r : Row) : String → Option Val
  | "id" => r.id
  | "batch_id" => r.batch_id
  | "site" => r.site
  | "template_name" => r.template_name
  | "language" => r.language
  | "product_name" => r.product_name
  | "allergens_short" => r.allergens_short
  | "qty" => r.qty
  | "status" => r.status
  | "error_reason" => r.error_reason
  | _ => none

def RETRIES : Nat := 3
def RETRY_DELAY_SEC : Nat := 10

def BASE : String := "/opt/nl-connector"
def STAGING : String := BASE ++ "/staging"
def ARCHIVE : String := BASE ++ "/archive"
def ERROR : String := BASE ++ "/error"
def DEST : String := "/mnt/nicelabel/in"

/-- The connector's required-field schema: name, optional max length, kind. -/
def REQUIRED : List (String × Option Nat × String) :=
  [("batch_id", some 40, "text"),
   ("site", some 60, "text"),
   ("template_name", some 80, "text"),
   ("language", some 10, "text"),
   ("product_name", some 120, "text"),
   ("allergens_short", some 80, "text"),
   ("qty", none, "int_1_999")]

/-- `maxlen and len(val) > maxlen`: the length test is skipped when the schema
has no max length. -/
def lenBad (v : Val) (maxlen : Option Nat) : Bool :=
  match maxlen with
  | some m => decide ((pyStr v).length > m)
  | none => false

/-- Rendering of the schema's max length inside an error message. -/
def maxlenStr : Option Nat → String
  | some m => toString m
  | none => "None"

/-- The body of `validate_row`: walk the schema fields in order, failing on the
first field that is absent/empty, too long, or (for qty) not an int in 1..999. -/
def validate_fields (row : Row) : List (String × Option Nat × String) → Bool × String
  | [] => (true, "OK")
  | (key, maxlen, typ) :: rest =>
    match row.get key with
    | none => (false, "Missing required field: " ++ key)
    | some v =>
      if v = Val.s "" then (false, "Missing required field: " ++ key)
      else if lenBad v maxlen then
        (false, "Field too long: " ++ key ++ " (max " ++ maxlenStr maxlen ++ ")")
      else if typ = "int_1_999" then
        match pyInt v with
        | none => (false, "qty must be integer")
        | some n =>
          if 1 ≤ n ∧ n ≤ 999 then validate_fields row rest
          else (false, "qty must be 1..999")
      else validate_fields row rest

/-- `validate_row`: valid/invalid plus a human-readable reason. -/
def validate_row (row : Row) : Bool × String :=
  validate_fields row REQUIRED

example :
    validate_row { batch_id := some (.s "B1"), site := some (.s "S1"),
                   template_name := some (.s "T"), language := some (.s "en"),
                   product_name := some (.s "P"), allergens_short := some (.s "nuts"),
                   qty := some (.i 5) } = (true, "OK") := by decide

example :
    validate_row { batch_id := some (.s "B1"), site := some (.s "S1"),
                   template_name := some (.s "T"), language := some (.s "en"),
                   product_name := some (.s "P"), allergens_short := some (.s ""),
                   qty := some (.i 5) }
      = (false, "Missing required field: allergens_short") := by decide

example :
    validate_row { batch_id := some (.s "B1"), site := some (.s "S1"),
                   template_name := some (.s "T"), language := some (.s "en"),
                   product_name := some (.s "P"), allergens_short := some (.s "a"),
                   qty := some (.i 1000) }
      = (false, "qty must be 1..999") := by decide

/-- Python `s.strip(chars)`: drop the given characters from both ends. -/
def pyStrip (str : String) (chars : List Char) : String :=
  String.mk (((str.data.dropWhile (fun c => c ∈ chars)).reverse.dropWhile
    (fun c => c ∈ chars)).reverse)

/-- `_safe_name`: keep alphanumerics, hyphen and underscore, truncate, strip
leading/trailing hyphens/underscores, fall back when nothing is left. -/
def safe_name (str : String) (fallback : String) (max_len : Nat) : String :=
  let safe := String.mk (str.data.filter (fun c => c.isAlphanum || c == '-' || c == '_'))
  let safe := pyStrip (String.mk (safe.data.take max_len)) ['-', '_']
  if safe == "" then fallback else safe

/-- `make_filename`: `{ts}-{safe(site)}-{safe(batch_id)}.csv` with the run
timestamp supplied explicitly (the code reads the wall clock). -/
def make_filename (ts : String) (site : String) (batch_id : String) : String :=
  ts ++ "-" ++ safe_name site "site" 30 ++ "-" ++ safe_name batch_id "batch" 40 ++ ".csv"

/-- The record-level content of a delimited artifact: a header row and one
list of cell strings per data row. -/
structure Artifact where
  header : List String
  records : List (List String)
deriving DecidableEq, Repr

/-- A cell as the csv writer renders a field value (`None`/absent as empty). -/
def csvCell : Option Val → String
  | none => ""
  | some v => pyStr v

/-- `atomic_write_csv`: write the batch rows under the schema's field names, in
schema order, to `STAGING/file_name` (temporary file then atomic rename);
returns the final path and the written content. -/
def atomic_write_csv (file_name : String) (rows : List Row) : String × Artifact :=
  (STAGING ++ "/" ++ file_name,
   { header := REQUIRED.map (fun f => f.1),
     records := rows.map (fun r => REQUIRED.map (fun f => csvCell (r.get f.1))) })

/-- Reading an artifact back: pair each record's cells with the header names. -/
def readArtifact (a : Artifact) : List (List (String × String)) :=
  a.records.map (fun rec => a.header.zip rec)

/-- Outcome oracle for the delivery copy: whether the n-th attempt (1-based)
succeeds, and the error string it raises when it fails. -/
structure CopyEnv where
  ok : Nat → Bool
  err : Nat → String

/-- Observable outcome of `copy_with_retry`: the returned pair, the number of
attempts performed, and the list of sleep durations performed. -/
structure CopyResult where
  ok : Bool
  info : Option String
  attempts : Nat
  sleeps : List Nat
deriving DecidableEq, Repr

/-- The retry loop of `copy_with_retry` over the remaining attempt numbers. -/
def copy_go (env : CopyEnv) (destPath : String) :
    List Nat → Option String → CopyResult
  | [], lastErr => { ok := false, info := lastErr, attempts := 0, sleeps := [] }
  | a :: rest, _ =>
    if env.ok a then { ok := true, info := some destPath, attempts := 1, sleeps := [] }
    else
      let r := copy_go env destPath rest (some (env.err a))
      { r with attempts := r.attempts + 1, sleeps := RETRY_DELAY_SEC :: r.sleeps }

/-- `copy_with_retry`: up to `RETRIES` copy attempts into `dest_dir/file_name`,
sleeping `RETRY_DELAY_SEC` after every failed attempt; returns success with the
destination path, or failure with the last error. -/
def copy_with_retry (env : CopyEnv) (dest_dir : String) (file_name : String) : CopyResult :=
  copy_go env (dest_dir ++ "/" ++ file_name) (List.range' 1 RETRIES) none

example :
    copy_with_retry { ok := fun a => a == 3, err := fun a => "e" ++ toString a } "/d" "f.csv"
      = { ok := true, info := some "/d/f.csv", attempts := 3, sleeps := [10, 10] } := by decide

example :
    copy_with_retry { ok := fun _ => false, err := fun a => "e" ++ toString a } "/d" "f.csv"
      = { ok := false, info := some "e3", attempts := 3, sleeps := [10, 10, 10] } := by decide

/-- Success/failure oracle for the two remote updates inside
`mark_batch_error_row_owned`. -/
structure MarkEnv where
  step1_ok : Bool
  reason_ok : Bool
  fallback_ok : Bool
deriving DecidableEq, Repr

/-- Step 1 of the reconciler on one stored row: block the batch by setting
`status=ERROR` on every row whose `batch_id` matches, touching nothing else. -/
def step1Row (batch_id : Val) (r : Row) : Row :=
  if r.batch_id = some batch_id then { r with status := some (Val.s "ERROR") } else r

/-- `mark_batch_error_row_owned` acting on the remote table (a list of rows):
step 1 blocks the whole batch (aborting if the update fails); step 2, only when
a failing row id is truthy, sets `status=ERROR, error_reason` on that row,
falling back to a bare `status=ERROR` update if the reasoned update fails. -/
def mark_batch_error_row_owned (env : MarkEnv) (batch_id : Val)
    (failing_row_id : Option Val) (reason : String) (db : List Row) : List Row :=
  if env.step1_ok = false then db
  else
    let db1 := db.map (step1Row batch_id)
    if truthy failing_row_id = false then db1
    else if env.reason_ok then
      db1.map (fun r =>
        if r.id = failing_row_id then
          { r with status := some (Val.s "ERROR"), error_reason := some (Val.s reason) }
        else r)
    else if env.fallback_ok then
      db1.map (fun r =>
        if r.id = failing_row_id then { r with status := some (Val.s "ERROR") } else r)
    else db1

/-- One quarantine record, as `write_validation_error_artifacts` persists it
(CSV snapshot plus `.error.json` metadata under `error/{run_id}/{safe_site}/`). -/
structure QRec where
  run_id : String
  site : Val
  batch_id : Val
  file_name : String
  failing_row_id : Option Val
  error_reason : String
  rows_count : Nat
deriving DecidableEq, Repr

/-- The observable external effects of one run, in order of occurrence. -/
structure RunState where
  staged : List String := []
  delivered : List String := []
  archived : List String := []
  quarantines : List QRec := []
  marks : List (Val × Option Val × String) := []
  sent : List (List Val) := []
deriving DecidableEq, Repr

/-- Environment of one run: the wall-clock timestamp string and the
success/failure oracles of the effectful calls, indexed by batch position. -/
structure RunEnv where
  ts : String
  copyOk : Nat → Nat → Bool
  copyErr : Nat → Nat → String
  moveOk : Nat → Bool
  sentOk : Nat → Bool

/-- The copy oracle of the batch at position `i`. -/
def batchCopyEnv (env : RunEnv) (i : Nat) : CopyEnv :=
  { ok := env.copyOk i, err := env.copyErr i }

/-- `batches.setdefault(key, []).append(r)`: insertion-ordered grouping. -/
def setdefaultAppend (acc : List (Val × List Row)) (k : Val) (r : Row) :
    List (Val × List Row) :=
  if acc.any (fun p => p.1 = k) then
    acc.map (fun p => if p.1 = k then (p.1, p.2 ++ [r]) else p)
  else acc ++ [(k, [r])]

/-- The validation-and-grouping loop of `main`: walk the fetched rows in
order, returning the first invalid row, or the finished grouping if every row
validates. -/
def buildBatches : List Row → List (Val × List Row) → Sum Row (List (Val × List Row))
  | [], acc => Sum.inr acc
  | r :: rest, acc =>
    if (validate_row r).1 then
      buildBatches rest (setdefaultAppend acc (r.batch_id.getD (Val.s "")) r)
    else Sum.inl r

/-- `rows[0]["site"]` of a grouped batch. -/
def batchSite (rows : List Row) : Val :=
  (match rows with | [] => none | r :: _ => r.site).getD (Val.s "")

/-- The delivery file name of a grouped batch. -/
def batchFileName (env : RunEnv) (batch_id : Val) (rows : List Row) : String :=
  make_filename env.ts (pyStr (batchSite rows)) (pyStr batch_id)

/-- The second loop of `main`: for each grouped batch, write the staging
artifact, copy with retry (failure exits 2), move to the archive (a move
failure raises, exiting 3), then bulk-update `status=SENT` keyed by the ids of
rows that have one (a failing update raises, exiting 3). -/
def deliverLoop (env : RunEnv) : List (Val × List Row) → Nat → RunState × Nat
  | [], _ => ({}, 0)
  | (batch_id, rows) :: rest, i =>
    let file_name := batchFileName env batch_id rows
    let cres := copy_with_retry (batchCopyEnv env i) DEST file_name
    if cres.ok then
      if env.moveOk i then
        let ids := rows.filterMap (fun r => r.id)
        if ids.isEmpty then
          let next := deliverLoop env rest (i + 1)
          ({ next.1 with staged := file_name :: next.1.staged,
                         delivered := file_name :: next.1.delivered,
                         archived := file_name :: next.1.archived }, next.2)
        else if env.sentOk i then
          let next := deliverLoop env rest (i + 1)
          ({ next.1 with staged := file_name :: next.1.staged,
                         delivered := file_name :: next.1.delivered,
                         archived := file_name :: next.1.archived,
                         sent := ids :: next.1.sent }, next.2)
        else
          ({ staged := [file_name], delivered := [file_name],
             archived := [file_name] }, 3)
      else
        ({ staged := [file_name], delivered := [file_name] }, 3)
    else
      ({ staged := [file_name] }, 2)

/-- The quarantine-and-fail branch of `main`, entered at the first invalid
fetched row `r`: derive site/batch/file name, snapshot every row of the same
batch (or just `r`), record the error metadata, reconcile status, and exit 1. -/
def failBranch (env : RunEnv) (items : List Row) (r : Row) : RunState × Nat :=
  let batch_id := r.batch_id.getD (Val.s "")
  let reason := (validate_row r).2
  let site := r.site.getD (Val.s "site")
  let failing_row_id := r.id
  let file_name := make_filename env.ts (pyStr site)
    (pyStr (if truthy (some batch_id) then batch_id else Val.s "batch"))
  let batch_rows :=
    let l := items.filter (fun x => x.batch_id = some batch_id)
    if l.isEmpty then [r] else l
  ({ quarantines := [{ run_id := env.ts, site := site, batch_id := batch_id,
                       file_name := file_name, failing_row_id := failing_row_id,
                       error_reason := reason, rows_count := batch_rows.length }],
     marks := [(batch_id, failing_row_id, reason)] }, 1)

/-- `main` on an already-fetched row set (named `connector_main` since Lean reserves `main`): empty fetch is a successful no-op;
otherwise the first invalid row aborts the run through the quarantine branch,
and only a fully valid set reaches the delivery loop. The second component is
the process exit classification (3 standing for an uncaught exception). -/
def connector_main (env : RunEnv) (items : List Row) : RunState × Nat :=
  if items.isEmpty then ({}, 0)
  else
    match buildBatches items [] with
    | Sum.inl r => failBranch env items r
    | Sum.inr batches => deliverLoop env batches 0

/-! Concrete fixtures used by sanity checks, witnesses and counterexamples. -/

/-- A run environment in which every effectful call succeeds. -/
def envAllOk : RunEnv :=
  { ts := "20260101-000000", copyOk := fun _ _ => true, copyErr := fun _ _ => "",
    moveOk := fun _ => true, sentOk := fun _ => true }

/-- A fully valid queue row in batch `B1`, site `S1`. -/
def rowOk1 : Row :=
  { id := some (.i 1), batch_id := some (.s "B1"), site := some (.s "S1"),
    template_name := some (.s "T"), language := some (.s "en"),
    product_name := some (.s "P"), allergens_short := some (.s "nuts"),
    qty := some (.i 5), status := some (.s "READY") }

/-- A second fully valid queue row in batch `B1`, site `S1`. -/
def rowOk2 : Row :=
  { rowOk1 with id := some (.i 2), product_name := some (.s "Q") }

/-- A valid row of batch `B1` placed at a different site `S2`. -/
def rowOtherSite : Row :=
  { rowOk1 with id := some (.i 3), site := some (.s "S2") }

/-- An invalid row (qty 0) in batch `B2`. -/
def rowBadQty : Row :=
  { rowOk1 with id := some (.i 4), batch_id := some (.s "B2"), qty := some (.i 0) }

/-- An invalid row (missing product_name) in batch `B3`. -/
def rowBadName : Row :=
  { rowOk1 with id := some (.i 5), batch_id := some (.s "B3"), product_name := none }

example :
    connector_main envAllOk [rowOk1, rowOk2]
      = ({ staged := ["20260101-000000-S1-B1.csv"],
           delivered := ["20260101-000000-S1-B1.csv"],
           archived := ["20260101-000000-S1-B1.csv"],
           sent := [[Val.i 1, Val.i 2]] }, 0) := by decide

example :
    connector_main envAllOk [rowOk1, rowBadQty, rowOk2]
      = ({ quarantines := [{ run_id := "20260101-000000", site := Val.s "S1",
                             batch_id := Val.s "B2",
                             file_name := "20260101-000000-S1-B2.csv",
                             failing_row_id := some (Val.i 4),
                             error_reason := "qty must be 1..999",
                             rows_count := 1 }],
           marks := [(Val.s "B2", some (Val.i 4), "qty must be 1..999")] }, 1) := by decide

/-! ## Theorems -/

/-- The attempt numbers the retry loop iterates over. -/
lemma range_retries : List.range' 1 RETRIES = [1, 2, 3] := rfl

/-- A copy whose first attempt succeeds returns immediately. -/
lemma copy_first_ok (env : CopyEnv) (d f : String) (h : env.ok 1 = true) :
    copy_with_retry env d f
      = { ok := true, info := some (d ++ "/" ++ f), attempts := 1, sleeps := [] } := by
  simp [copy_with_retry, range_retries, copy_go, h]

/-- C8: `copy_with_retry` makes at most `RETRIES` = 3 attempts, every sleep it
performs lasts `RETRY_DELAY_SEC` = 10 seconds, it returns success together with
the final destination path on the first attempt that succeeds (in particular
after two failures followed by a success), and it returns failure together with
the last observed error string when all three attempts fail. -/
theorem c8_delivery_retry_contract (env : CopyEnv) (d f : String) :
    (copy_with_retry env d f).attempts ≤ RETRIES ∧
    (∀ t ∈ (copy_with_retry env d f).sleeps, t = RETRY_DELAY_SEC) ∧
    (env.ok 1 = true →
      copy_with_retry env d f
        = { ok := true, info := some (d ++ "/" ++ f), attempts := 1, sleeps := [] }) ∧
    (env.ok 1 = false → env.ok 2 = true →
      copy_with_retry env d f
        = { ok := true, info := some (d ++ "/" ++ f), attempts := 2,
            sleeps := [RETRY_DELAY_SEC] }) ∧
    (env.ok 1 = false → env.ok 2 = false → env.ok 3 = true →
      copy_with_retry env d f
        = { ok := true, info := some (d ++ "/" ++ f), attempts := 3,
            sleeps := [RETRY_DELAY_SEC, RETRY_DELAY_SEC] }) ∧
    (env.ok 1 = false → env.ok 2 = false → env.ok 3 = false →
      copy_with_retry env d f
        = { ok := false, info := some (env.err 3), attempts := 3,
            sleeps := [RETRY_DELAY_SEC, RETRY_DELAY_SEC, RETRY_DELAY_SEC] }) := by
  cases h1 : env.ok 1 <;> cases h2 : env.ok 2 <;> cases h3 : env.ok 3 <;>
    simp [copy_with_retry, range_retries, copy_go, h1, h2, h3, RETRIES, RETRY_DELAY_SEC]

/-- A copy failing twice then succeeding on the third attempt (a concrete
instance of C8). -/
theorem c8_delivery_retry_contract_witness :
    copy_with_retry { ok := fun a => a == 3, err := fun a => "e" ++ toString a }
        DEST "x.csv"
      = { ok := true, info := some (DEST ++ "/" ++ "x.csv"), attempts := 3,
          sleeps := [RETRY_DELAY_SEC, RETRY_DELAY_SEC] } :=
  (c8_delivery_retry_contract
    { ok := fun a => a == 3, err := fun a => "e" ++ toString a } DEST "x.csv")
    |>.2.2.2.2.1 rfl rfl rfl

/-- C10: the fixed delay is slept after every failed attempt, including the
final one: exhausting all three attempts performs exactly 3 sleeps of
`RETRY_DELAY_SEC`, not 2, so the delay is not strictly between attempts. -/
theorem c10_sleep_after_final_attempt (env : CopyEnv) (d f : String)
    (h1 : env.ok 1 = false) (h2 : env.ok 2 = false) (h3 : env.ok 3 = false) :
    (copy_with_retry env d f).sleeps
        = [RETRY_DELAY_SEC, RETRY_DELAY_SEC, RETRY_DELAY_SEC] ∧
    (copy_with_retry env d f).sleeps.length = RETRIES := by
  simp [copy_with_retry, range_retries, copy_go, h1, h2, h3, RETRIES]

/-- An all-failing copy performs three sleeps (a concrete instance of C10). -/
theorem c10_sleep_after_final_attempt_witness :
    (copy_with_retry { ok := fun _ => false, err := fun a => "e" ++ toString a }
        DEST "y.csv").sleeps
        = [RETRY_DELAY_SEC, RETRY_DELAY_SEC, RETRY_DELAY_SEC] ∧
    (copy_with_retry { ok := fun _ => false, err := fun a => "e" ++ toString a }
        DEST "y.csv").sleeps.length = RETRIES :=
  c10_sleep_after_final_attempt
    { ok := fun _ => false, err := fun a => "e" ++ toString a } DEST "y.csv" rfl rfl rfl

/-- Grouping as a fold, the shape `buildBatches` reaches when no row fails. -/
def groupItems (acc : List (Val × List Row)) (items : List Row) : List (Val × List Row) :=
  items.foldl (fun a r => setdefaultAppend a (r.batch_id.getD (Val.s "")) r) acc

/-- When every fetched row validates, the loop returns the full grouping. -/
lemma buildBatches_all_valid :
    ∀ (items : List Row) (acc : List (Val × List Row)),
      (∀ r ∈ items, (validate_row r).1 = true) →
      buildBatches items acc = Sum.inr (groupItems acc items) := by
  intro items
  induction items with
  | nil => intro acc _; rfl
  | cons r rest ih =>
    intro acc h
    have hr : (validate_row r).1 = true := h r (by simp)
    simp only [buildBatches, hr, if_pos]
    rw [ih _ (fun x hx => h x (by simp [hx]))]
    rfl

/-- The loop stops at the first invalid row. -/
lemma buildBatches_first_invalid :
    ∀ (pre : List Row) (r : Row) (post : List Row) (acc : List (Val × List Row)),
      (∀ x ∈ pre, (validate_row x).1 = true) → (validate_row r).1 = false →
      buildBatches (pre ++ r :: post) acc = Sum.inl r := by
  intro pre
  induction pre with
  | nil =>
    intro r post acc _ hr
    simp [buildBatches, hr]
  | cons x rest ih =>
    intro r post acc h hr
    have hx : (validate_row x).1 = true := h x (by simp)
    simp only [List.cons_append, buildBatches, hx, if_pos]
    exact ih r post _ (fun y hy => h y (by simp [hy])) hr

/-- If some fetched row is invalid, the loop reports an invalid row. -/
lemma buildBatches_of_exists_invalid :
    ∀ (items : List Row) (acc : List (Val × List Row)),
      (∃ x ∈ items, (validate_row x).1 = false) →
      ∃ r, buildBatches items acc = Sum.inl r ∧ (validate_row r).1 = false := by
  intro items
  induction items with
  | nil => intro acc h; simp at h
  | cons x rest ih =>
    intro acc h
    cases hx : (validate_row x).1 with
    | false => exact ⟨x, by simp [buildBatches, hx], hx⟩
    | true =>
      obtain ⟨y, hy, hyv⟩ := h
      rcases List.mem_cons.mp hy with rfl | hy'
      · rw [hx] at hyv; cases hyv
      · obtain ⟨r, hr, hrv⟩ :=
          ih (setdefaultAppend acc (x.batch_id.getD (Val.s "")) x) ⟨y, hy', hyv⟩
        exact ⟨r, by simp [buildBatches, hx, hr], hrv⟩

/-- C1: in every run whose fetched row set contains at least one invalid row,
the run exits with the validation-failure classification 1 and delivers
nothing at all: no artifact is written to staging, the destination or the
archive, and no row is marked Sent — even for batches whose own rows are all
valid. -/
theorem c1_any_invalid_blocks_whole_run (env : RunEnv) (items : List Row)
    (h : ∃ x ∈ items, (validate_row x).1 = false) :
    (connector_main env items).2 = 1 ∧
    (connector_main env items).1.staged = [] ∧
    (connector_main env items).1.delivered = [] ∧
    (connector_main env items).1.archived = [] ∧
    (connector_main env items).1.sent = [] := by
  have hne : items.isEmpty = false := by
    obtain ⟨x, hx, -⟩ := h
    cases items with
    | nil => simp at hx
    | cons a l => rfl
  obtain ⟨r, hr, -⟩ := buildBatches_of_exists_invalid items [] h
  simp [connector_main, hne, hr, failBranch]

/-- A run holding one valid batch (`B1`) and one invalid row (batch `B2`)
delivers nothing and exits 1 (a concrete instance of C1). -/
theorem c1_any_invalid_blocks_whole_run_witness :
    (connector_main envAllOk [rowOk1, rowBadQty, rowOk2]).2 = 1 ∧
    (connector_main envAllOk [rowOk1, rowBadQty, rowOk2]).1.staged = [] ∧
    (connector_main envAllOk [rowOk1, rowBadQty, rowOk2]).1.delivered = [] ∧
    (connector_main envAllOk [rowOk1, rowBadQty, rowOk2]).1.archived = [] ∧
    (connector_main envAllOk [rowOk1, rowBadQty, rowOk2]).1.sent = [] :=
  c1_any_invalid_blocks_whole_run envAllOk [rowOk1, rowBadQty, rowOk2]
    ⟨rowBadQty, by decide, by decide⟩

/-- C2 fails on the code: with two invalid rows in two distinct batches
(`B2` and `B3`), the run quarantines and status-reconciles only the first
invalid row's batch `B2`; batch `B3` is never quarantined, so validation does
not collect all failures before deciding. -/
theorem c2_counterexample :
    (validate_row rowBadQty).1 = false ∧
    (validate_row rowBadName).1 = false ∧
    rowBadQty.batch_id ≠ rowBadName.batch_id ∧
    (connector_main envAllOk [rowBadQty, rowBadName]).1.quarantines.map
        (fun q => q.batch_id) = [Val.s "B2"] ∧
    (connector_main envAllOk [rowBadQty, rowBadName]).1.marks.map
        (fun m => m.1) = [Val.s "B2"] ∧
    ¬ Val.s "B3" ∈ (connector_main envAllOk [rowBadQty, rowBadName]).1.quarantines.map
        (fun q => q.batch_id) := by decide

/-- C2 amended: validation stops at the first invalid row in arrival order;
only that row's batch is quarantined and status-reconciled (with that row as
the failing row and its validation reason), and the run then terminates with
failure classification 1. -/
theorem c2_amended_stop_at_first_failure (env : RunEnv) (pre : List Row) (r : Row)
    (post : List Row) (hpre : ∀ x ∈ pre, (validate_row x).1 = true)
    (hr : (validate_row r).1 = false) :
    (connector_main env (pre ++ r :: post)).2 = 1 ∧
    (connector_main env (pre ++ r :: post)).1.quarantines.map (fun q => q.batch_id)
        = [r.batch_id.getD (Val.s "")] ∧
    (connector_main env (pre ++ r :: post)).1.marks
        = [(r.batch_id.getD (Val.s ""), r.id, (validate_row r).2)] := by
  have hne : (pre ++ r :: post).isEmpty = false := by cases pre <;> rfl
  have hb := buildBatches_first_invalid pre r post [] hpre hr
  simp [connector_main, hne, hb, failBranch]

/-- A concrete instance of the amended C2: the first invalid row (batch `B2`)
is the only one quarantined and reconciled. -/
theorem c2_amended_stop_at_first_failure_witness :
    (connector_main envAllOk ([rowOk1] ++ rowBadQty :: [rowBadName])).2 = 1 ∧
    (connector_main envAllOk ([rowOk1] ++ rowBadQty :: [rowBadName])).1.quarantines.map
        (fun q => q.batch_id) = [rowBadQty.batch_id.getD (Val.s "")] ∧
    (connector_main envAllOk ([rowOk1] ++ rowBadQty :: [rowBadName])).1.marks
        = [(rowBadQty.batch_id.getD (Val.s ""), rowBadQty.id, (validate_row rowBadQty).2)] :=
  c2_amended_stop_at_first_failure envAllOk [rowOk1] rowBadQty [rowBadName]
    (by decide) (by decide)

/-- The delivery loop never produces quarantine artifacts or error marks. -/
lemma deliverLoop_quarantine_free (env : RunEnv) :
    ∀ (bs : List (Val × List Row)) (i : Nat),
      (deliverLoop env bs i).1.quarantines = [] ∧ (deliverLoop env bs i).1.marks = [] := by
  intro bs
  induction bs with
  | nil => intro i; exact ⟨rfl, rfl⟩
  | cons b rest ih =>
    intro i
    obtain ⟨bid, rows⟩ := b
    simp only [deliverLoop]
    split_ifs <;> simp_all

/-- The `status=SENT` calls the delivery loop issues for a batch list: one call
per batch holding the ids of its rows that have one, and no call at all for a
batch none of whose rows has an id. -/
def sentCallsOf (bs : List (Val × List Row)) : List (List Val) :=
  bs.filterMap (fun b =>
    if (b.2.filterMap (fun r => r.id)).isEmpty then none
    else some (b.2.filterMap (fun r => r.id)))

/-- With every effectful call succeeding, the delivery loop stages, delivers
and archives one artifact per batch in grouping order and issues exactly the
`sentCallsOf` updates, exiting 0. -/
lemma deliverLoop_allOk (env : RunEnv)
    (hc : ∀ j, env.copyOk j 1 = true) (hm : ∀ j, env.moveOk j = true)
    (hs : ∀ j, env.sentOk j = true) :
    ∀ (bs : List (Val × List Row)) (i : Nat),
      deliverLoop env bs i =
        ({ staged := bs.map (fun b => batchFileName env b.1 b.2),
           delivered := bs.map (fun b => batchFileName env b.1 b.2),
           archived := bs.map (fun b => batchFileName env b.1 b.2),
           quarantines := [], marks := [],
           sent := sentCallsOf bs }, 0) := by
  intro bs
  induction bs with
  | nil => intro i; rfl
  | cons b rest ih =>
    intro i
    obtain ⟨bid, rows⟩ := b
    have hcok := copy_first_ok (batchCopyEnv env i) DEST
      (batchFileName env bid rows) (hc i)
    by_cases hids : ∀ a ∈ rows, a.id = none
    · have hempty : (rows.filterMap (fun r => r.id)).isEmpty = true := by
        rw [List.isEmpty_iff, List.filterMap_eq_nil_iff]; exact hids
      have hsent : sentCallsOf ((bid, rows) :: rest) = sentCallsOf rest := by
        apply List.filterMap_cons_none
        show (if (rows.filterMap (fun r => r.id)).isEmpty then none
              else some (rows.filterMap (fun r => r.id))) = none
        rw [if_pos hempty]
      simp only [deliverLoop, hcok, hm i, hs i, if_true, ih (i + 1), hsent]
      rw [if_pos hempty]
      simp
    · have hempty : ¬ (rows.filterMap (fun r => r.id)).isEmpty = true := by
        rw [List.isEmpty_iff, List.filterMap_eq_nil_iff]; exact hids
      have hsent : sentCallsOf ((bid, rows) :: rest)
          = rows.filterMap (fun r => r.id) :: sentCallsOf rest := by
        apply List.filterMap_cons_some
        show (if (rows.filterMap (fun r => r.id)).isEmpty then none
              else some (rows.filterMap (fun r => r.id)))
            = some (rows.filterMap (fun r => r.id))
        rw [if_neg hempty]
      simp only [deliverLoop, hcok, hm i, hs i, if_true, ih (i + 1), hsent]
      rw [if_neg hempty]
      simp

/-- Grouping never shrinks the batch map. -/
lemma setdefaultAppend_length (acc : List (Val × List Row)) (k : Val) (r : Row) :
    acc.length ≤ (setdefaultAppend acc k r).length := by
  unfold setdefaultAppend
  split <;> simp

/-- The grouped batch list is at least as long as the accumulator. -/
lemma groupItems_length : ∀ (items : List Row) (acc : List (Val × List Row)),
    acc.length ≤ (groupItems acc items).length := by
  intro items
  induction items with
  | nil => intro acc; exact Nat.le_refl _
  | cons r rest ih =>
    intro acc
    exact Nat.le_trans (setdefaultAppend_length acc _ r)
      (ih (setdefaultAppend acc (r.batch_id.getD (Val.s "")) r))

/-- Every row stored in a group comes from the accumulator or the input. -/
lemma mem_rows_setdefaultAppend {acc : List (Val × List Row)} {k : Val} {r : Row}
    {b : Val × List Row} {x : Row} (hb : b ∈ setdefaultAppend acc k r) (hx : x ∈ b.2) :
    (∃ b0 ∈ acc, x ∈ b0.2) ∨ x = r := by
  unfold setdefaultAppend at hb
  split at hb
  · obtain ⟨p, hp, hpe⟩ := List.mem_map.mp hb
    by_cases hk : p.1 = k
    · rw [if_pos hk] at hpe
      subst hpe
      rcases List.mem_append.mp hx with h | h
      · exact Or.inl ⟨p, hp, h⟩
      · exact Or.inr (List.mem_singleton.mp h)
    · rw [if_neg hk] at hpe
      subst hpe
      exact Or.inl ⟨p, hp, hx⟩
  · rcases List.mem_append.mp hb with h | h
    · exact Or.inl ⟨b, h, hx⟩
    · rw [List.mem_singleton.mp h] at hx
      exact Or.inr (List.mem_singleton.mp hx)

/-- Every row stored in the final grouping comes from the accumulator or from
the fetched items. -/
lemma mem_rows_groupItems : ∀ (items : List Row) (acc : List (Val × List Row))
    (b : Val × List Row) (x : Row), b ∈ groupItems acc items → x ∈ b.2 →
    (∃ b0 ∈ acc, x ∈ b0.2) ∨ x ∈ items := by
  intro items
  induction items with
  | nil => intro acc b x hb hx; exact Or.inl ⟨b, hb, hx⟩
  | cons r rest ih =>
    intro acc b x hb hx
    rcases ih (setdefaultAppend acc (r.batch_id.getD (Val.s "")) r) b x hb hx with h | h
    · obtain ⟨b0, hb0, hxb0⟩ := h
      rcases mem_rows_setdefaultAppend hb0 hxb0 with h' | h'
      · exact Or.inl h'
      · exact Or.inr (by simp [h'])
    · exact Or.inr (by simp [h])

/-- C4 fails on the code: two individually valid rows sharing `batch_id` `B1`
but sitting at distinct sites (`S1` and `S2`) raise no batch-level validation
failure at all — nothing is quarantined or marked, the batch is delivered as a
single artifact named after the first row's site, and the run exits 0. -/
theorem c4_counterexample :
    rowOk1.batch_id = rowOtherSite.batch_id ∧
    rowOk1.site ≠ rowOtherSite.site ∧
    (validate_row rowOk1).1 = true ∧
    (validate_row rowOtherSite).1 = true ∧
    (connector_main envAllOk [rowOk1, rowOtherSite]).1.quarantines = [] ∧
    (connector_main envAllOk [rowOk1, rowOtherSite]).1.marks = [] ∧
    (connector_main envAllOk [rowOk1, rowOtherSite]).1.delivered
      = ["20260101-000000-S1-B1.csv"] ∧
    (connector_main envAllOk [rowOk1, rowOtherSite]).2 = 0 := by decide

/-- C4 amended: the connector performs no site-uniqueness check on batches.
When every fetched row is individually valid, no quarantine record and no
error mark is ever produced — regardless of how many distinct sites a batch
contains — and with all effectful calls succeeding every grouped batch is
delivered as one artifact (named via the first row's site), exiting 0. -/
theorem c4_no_multi_site_check (env : RunEnv) (items : List Row)
    (hv : ∀ r ∈ items, (validate_row r).1 = true) :
    (connector_main env items).1.quarantines = [] ∧
    (connector_main env items).1.marks = [] ∧
    ((∀ j, env.copyOk j 1 = true) → (∀ j, env.moveOk j = true) →
      (∀ j, env.sentOk j = true) →
      (connector_main env items).2 = 0 ∧
      (connector_main env items).1.delivered
        = (groupItems [] items).map (fun b => batchFileName env b.1 b.2)) := by
  by_cases hi : items.isEmpty = true
  · rw [List.isEmpty_iff] at hi
    subst hi
    exact ⟨rfl, rfl, fun _ _ _ => ⟨rfl, rfl⟩⟩
  · have hi' : items.isEmpty = false := by
      cases h : items.isEmpty
      · rfl
      · exact absurd h hi
    have hb := buildBatches_all_valid items [] hv
    simp only [connector_main, hi', Bool.false_eq_true, if_false, hb]
    refine ⟨(deliverLoop_quarantine_free env _ 0).1,
            (deliverLoop_quarantine_free env _ 0).2, ?_⟩
    intro hc hm hs
    rw [deliverLoop_allOk env hc hm hs]
    exact ⟨rfl, rfl⟩

/-- A concrete instance of the amended C4: the mixed-site batch `B1` passes
validation untouched and is delivered. -/
theorem c4_no_multi_site_check_witness :
    (connector_main envAllOk [rowOk1, rowOtherSite]).1.quarantines = [] ∧
    (connector_main envAllOk [rowOk1, rowOtherSite]).1.marks = [] ∧
    ((connector_main envAllOk [rowOk1, rowOtherSite]).2 = 0 ∧
     (connector_main envAllOk [rowOk1, rowOtherSite]).1.delivered
       = (groupItems [] [rowOk1, rowOtherSite]).map
           (fun b => batchFileName envAllOk b.1 b.2)) :=
  have h := c4_no_multi_site_check envAllOk [rowOk1, rowOtherSite] (by decide)
  ⟨h.1, h.2.1, h.2.2 (fun _ => rfl) (fun _ => rfl) (fun _ => rfl)⟩

/-- The delivery loop never issues an empty `status=SENT` update call. -/
lemma sentCallsOf_no_empty_call (bs : List (Val × List Row)) : [] ∉ sentCallsOf bs := by
  intro h
  rw [sentCallsOf, List.mem_filterMap] at h
  obtain ⟨b, _, hb⟩ := h
  by_cases he : (b.2.filterMap (fun r => r.id)).isEmpty = true
  · rw [if_pos he] at hb
    cases hb
  · rw [if_neg he] at hb
    injection hb with hb'
    exact he (by rw [hb']; rfl)

/-- Every id appearing in a `status=SENT` call is the id of some row of the
corresponding batch. -/
lemma sentCallsOf_ids (bs : List (Val × List Row)) (call : List Val)
    (hc : call ∈ sentCallsOf bs) (v : Val) (hv : v ∈ call) :
    ∃ b ∈ bs, ∃ r ∈ b.2, r.id = some v := by
  rw [sentCallsOf, List.mem_filterMap] at hc
  obtain ⟨b, hbs, hb⟩ := hc
  by_cases he : (b.2.filterMap (fun r => r.id)).isEmpty = true
  · rw [if_pos he] at hb
    cases hb
  · rw [if_neg he] at hb
    injection hb with hb'
    rw [← hb'] at hv
    obtain ⟨r, hr, hrv⟩ := List.mem_filterMap.mp hv
    exact ⟨b, hbs, r, hr, hrv⟩

/-- C9: for every fully valid, fully successful run, the bulk `status=SENT`
updates are keyed exactly by the ids of rows that possess an id field: per
grouped batch one call holding those ids, no call at all for a batch none of
whose rows has an id, never an empty call, and every id sent belongs to some
fetched row. A row lacking an id therefore appears in no update and keeps its
prior status. -/
theorem c9_sent_update_skips_rows_without_id (env : RunEnv) (items : List Row)
    (hv : ∀ r ∈ items, (validate_row r).1 = true)
    (hc : ∀ j, env.copyOk j 1 = true) (hm : ∀ j, env.moveOk j = true)
    (hs : ∀ j, env.sentOk j = true) :
    (connector_main env items).1.sent = sentCallsOf (groupItems [] items) ∧
    [] ∉ (connector_main env items).1.sent ∧
    (∀ call ∈ (connector_main env items).1.sent, ∀ v ∈ call,
      ∃ r ∈ items, r.id = some v) := by
  by_cases hi : items.isEmpty = true
  · rw [List.isEmpty_iff] at hi
    subst hi
    exact ⟨rfl, by simp [connector_main], by simp [connector_main]⟩
  · have hi' : items.isEmpty = false := by
      cases h : items.isEmpty
      · rfl
      · exact absurd h hi
    have hb := buildBatches_all_valid items [] hv
    have hmain : connector_main env items = deliverLoop env (groupItems [] items) 0 := by
      simp only [connector_main, hi', Bool.false_eq_true, if_false, hb]
    rw [hmain, deliverLoop_allOk env hc hm hs]
    refine ⟨rfl, sentCallsOf_no_empty_call _, ?_⟩
    intro call hcall v hvc
    obtain ⟨b, hbs, r, hr, hrv⟩ := sentCallsOf_ids _ call hcall v hvc
    rcases mem_rows_groupItems items [] b r hbs hr with h | h
    · obtain ⟨b0, hb0, -⟩ := h
      cases hb0
    · exact ⟨r, h, hrv⟩

/-- A concrete instance of C9: in a valid batch where one row lacks an id,
the single SENT call holds only the ids of the other rows. -/
theorem c9_sent_update_skips_rows_without_id_witness :
    (connector_main envAllOk [rowOk1, { rowOk2 with id := none }]).1.sent
        = sentCallsOf (groupItems [] [rowOk1, { rowOk2 with id := none }]) ∧
    [] ∉ (connector_main envAllOk [rowOk1, { rowOk2 with id := none }]).1.sent ∧
    (∀ call ∈ (connector_main envAllOk [rowOk1, { rowOk2 with id := none }]).1.sent,
      ∀ v ∈ call, ∃ r ∈ [rowOk1, { rowOk2 with id := none }], r.id = some v) :=
  c9_sent_update_skips_rows_without_id envAllOk [rowOk1, { rowOk2 with id := none }]
    (by decide) (fun _ => rfl) (fun _ => rfl) (fun _ => rfl)

/-- A run environment whose archive move always fails. -/
def envMoveFail : RunEnv := { envAllOk with moveOk := fun _ => false }

/-- C6 fails on the code: with a valid one-row batch, a successful copy to the
destination and a failing archive move, the batch is delivered but its rows
are never updated to Sent — the exception aborts the run with the
unhandled-error classification 3 before the status update runs. -/
theorem c6_counterexample :
    (connector_main envMoveFail [rowOk1]).1.delivered
        = ["20260101-000000-S1-B1.csv"] ∧
    (connector_main envMoveFail [rowOk1]).1.sent = [] ∧
    (connector_main envMoveFail [rowOk1]).1.archived = [] ∧
    (connector_main envMoveFail [rowOk1]).2 = 3 := by decide

/-- C6 amended: when the archive move of the first delivered batch fails, the
uncaught exception ends the run with exit classification 3 before any status
update: no row is set to Sent, nothing is archived, no later batch is
processed, and the single delivered artifact was written to staging and copied
to the destination (it is never moved out of staging). -/
theorem c6_archive_failure_skips_sent_update (env : RunEnv) (items : List Row)
    (hv : ∀ r ∈ items, (validate_row r).1 = true) (hne : items ≠ [])
    (hcopy : env.copyOk 0 1 = true) (hmove : env.moveOk 0 = false) :
    (connector_main env items).2 = 3 ∧
    (connector_main env items).1.sent = [] ∧
    (connector_main env items).1.archived = [] ∧
    ∃ f, (connector_main env items).1.staged = [f] ∧
         (connector_main env items).1.delivered = [f] := by
  have hi' : items.isEmpty = false := by
    cases items with
    | nil => exact absurd rfl hne
    | cons a l => rfl
  have hb := buildBatches_all_valid items [] hv
  have hmain : connector_main env items = deliverLoop env (groupItems [] items) 0 := by
    simp only [connector_main, hi', Bool.false_eq_true, if_false, hb]
  have hlen : 1 ≤ (groupItems [] items).length := by
    cases items with
    | nil => exact absurd rfl hne
    | cons a l =>
      have : groupItems [] (a :: l)
          = groupItems [(a.batch_id.getD (Val.s ""), [a])] l := rfl
      rw [this]
      exact Nat.le_trans (by simp) (groupItems_length l _)
  obtain ⟨g, gs, hg⟩ : ∃ g gs, groupItems [] items = g :: gs := by
    cases hgi : groupItems [] items with
    | nil => rw [hgi] at hlen; simp at hlen
    | cons g gs => exact ⟨g, gs, rfl⟩
  obtain ⟨bid, rows⟩ := g
  have hcok := copy_first_ok (batchCopyEnv env 0) DEST
    (batchFileName env bid rows) hcopy
  rw [hmain, hg]
  simp only [deliverLoop, hcok, hmove, Bool.false_eq_true, if_false, if_true]
  exact ⟨trivial, trivial, trivial, batchFileName env bid rows, rfl, rfl⟩

/-- A concrete instance of the amended C6. -/
theorem c6_archive_failure_skips_sent_update_witness :
    (connector_main envMoveFail [rowOk1, rowOk2]).2 = 3 ∧
    (connector_main envMoveFail [rowOk1, rowOk2]).1.sent = [] ∧
    (connector_main envMoveFail [rowOk1, rowOk2]).1.archived = [] ∧
    ∃ f, (connector_main envMoveFail [rowOk1, rowOk2]).1.staged = [f] ∧
         (connector_main envMoveFail [rowOk1, rowOk2]).1.delivered = [f] :=
  c6_archive_failure_skips_sent_update envMoveFail [rowOk1, rowOk2]
    (by decide) (by decide) rfl rfl

/-- C3 fails on the code: `allergens_short` is checked like every other
required text field, so a row whose `allergens_short` is absent/null or the
empty string is rejected with a missing-field failure naming it. -/
theorem c3_counterexample :
    validate_row { rowOk1 with allergens_short := none }
        = (false, "Missing required field: allergens_short") ∧
    validate_row { rowOk1 with allergens_short := some (Val.s "") }
        = (false, "Missing required field: allergens_short") := by decide

/-- A text field passing both the non-empty and the max-length check. -/
def textFieldOk (row : Row) (key : String) (m : Nat) : Bool :=
  match row.get key with
  | none => false
  | some v => if v = Val.s "" then false else !(lenBad v (some m))

/-- A passing text field lets `validate_row` move on to the next schema field. -/
lemma validate_fields_skip_text (row : Row) (key : String) (m : Nat)
    (rest : List (String × Option Nat × String))
    (h : textFieldOk row key m = true) :
    validate_fields row ((key, some m, "text") :: rest) = validate_fields row rest := by
  unfold textFieldOk at h
  cases hg : row.get key with
  | none => rw [hg] at h; cases h
  | some v =>
    rw [hg] at h
    have h2 : (if v = Val.s "" then false else !(lenBad v (some m))) = true := h
    by_cases hv : v = Val.s ""
    · rw [if_pos hv] at h2; cases h2
    · rw [if_neg hv] at h2
      have hlen : ¬ lenBad v (some m) = true := by
        cases hl : lenBad v (some m)
        · simp
        · rw [hl] at h2; cases h2
      simp only [validate_fields, hg, if_neg hv, if_neg hlen]
      rw [if_neg (by decide : ¬ ("text" : String) = "int_1_999")]

/-- C3 amended: `allergens_short` is required exactly like the other text
fields. In any row whose five preceding schema fields pass, an absent/null or
empty `allergens_short` makes `validate_row` fail with
`Missing required field: allergens_short`, and a present value longer than 80
characters fails with `Field too long: allergens_short (max 80)`. -/
theorem c3_allergens_short_is_required (row : Row)
    (h1 : textFieldOk row "batch_id" 40 = true)
    (h2 : textFieldOk row "site" 60 = true)
    (h3 : textFieldOk row "template_name" 80 = true)
    (h4 : textFieldOk row "language" 10 = true)
    (h5 : textFieldOk row "product_name" 120 = true) :
    ((row.allergens_short = none ∨ row.allergens_short = some (Val.s "")) →
      validate_row row = (false, "Missing required field: allergens_short")) ∧
    (∀ v, row.allergens_short = some v → 80 < (pyStr v).length →
      validate_row row = (false, "Field too long: allergens_short (max 80)")) := by
  have hred : validate_row row
      = validate_fields row
          [("allergens_short", some 80, "text"), ("qty", none, "int_1_999")] := by
    show validate_fields row REQUIRED = _
    rw [REQUIRED]
    rw [validate_fields_skip_text row "batch_id" 40 _ h1,
        validate_fields_skip_text row "site" 60 _ h2,
        validate_fields_skip_text row "template_name" 80 _ h3,
        validate_fields_skip_text row "language" 10 _ h4,
        validate_fields_skip_text row "product_name" 120 _ h5]
  have hget : row.get "allergens_short" = row.allergens_short := rfl
  constructor
  · intro hmiss
    rcases hmiss with hnone | hempty
    · rw [hred]
      simp only [validate_fields, hget, hnone]
      rfl
    · rw [hred]
      simp only [validate_fields, hget, hempty, if_pos rfl]
      rfl
  · intro v hsome hlong
    have hvne : ¬ v = Val.s "" := by
      intro hv
      rw [hv] at hlong
      simp [pyStr] at hlong
    have hbad : lenBad v (some 80) = true := by
      simp only [lenBad]
      exact decide_eq_true hlong
    rw [hred]
    simp only [validate_fields, hget, hsome, if_neg hvne, hbad, if_pos rfl]
    rfl

/-- A concrete instance of the amended C3: an absent and an over-long
`allergens_short` both fail as required-field violations. -/
theorem c3_allergens_short_is_required_witness :
    validate_row { rowOk1 with allergens_short := none }
        = (false, "Missing required field: allergens_short") ∧
    validate_row { rowOk1 with
        allergens_short := some (Val.s (String.mk (List.replicate 81 'a'))) }
        = (false, "Field too long: allergens_short (max 80)") :=
  ⟨(c3_allergens_short_is_required { rowOk1 with allergens_short := none }
      (by decide) (by decide) (by decide) (by decide) (by decide)).1 (Or.inl rfl),
   (c3_allergens_short_is_required { rowOk1 with
        allergens_short := some (Val.s (String.mk (List.replicate 81 'a'))) }
      (by decide) (by decide) (by decide) (by decide) (by decide)).2
      (Val.s (String.mk (List.replicate 81 'a'))) rfl (by decide)⟩

/-- C5 fails on the code: the written artifact holds exactly the seven schema
columns, with no appended derived `output_file_name` column, so reading it
back cannot yield the claimed extra base-name column. -/
theorem c5_counterexample :
    (atomic_write_csv "20260101-000000-S1-B1.csv" [rowOk1]).2.header
        = ["batch_id", "site", "template_name", "language", "product_name",
           "allergens_short", "qty"] ∧
    "output_file_name" ∉ (atomic_write_csv "20260101-000000-S1-B1.csv" [rowOk1]).2.header ∧
    (∀ rec ∈ (atomic_write_csv "20260101-000000-S1-B1.csv" [rowOk1]).2.records,
      rec.length = 7) := by decide

/-- C5 amended: the Artifact Writer writes exactly the schema's fields in
schema order — no derived column is appended — and reading the artifact back
yields the input rows column-for-column under the schema's field names. -/
theorem c5_roundtrip_schema_columns_only (file_name : String) (rows : List Row)
    (_hv : ∀ r ∈ rows, (validate_row r).1 = true) :
    (atomic_write_csv file_name rows).1 = STAGING ++ "/" ++ file_name ∧
    (atomic_write_csv file_name rows).2.header = REQUIRED.map (fun f => f.1) ∧
    readArtifact (atomic_write_csv file_name rows).2
      = rows.map (fun r => REQUIRED.map (fun f => (f.1, csvCell (r.get f.1)))) := by
  refine ⟨rfl, rfl, ?_⟩
  simp only [readArtifact, atomic_write_csv, List.map_map]
  apply List.map_congr_left
  intro r _
  exact List.zip_map' (fun f => f.1) (fun f => csvCell (r.get f.1)) REQUIRED

/-- A concrete instance of the amended C5 round-trip. -/
theorem c5_roundtrip_schema_columns_only_witness :
    (atomic_write_csv "a.csv" [rowOk1, rowOk2]).1 = STAGING ++ "/" ++ "a.csv" ∧
    (atomic_write_csv "a.csv" [rowOk1, rowOk2]).2.header = REQUIRED.map (fun f => f.1) ∧
    readArtifact (atomic_write_csv "a.csv" [rowOk1, rowOk2]).2
      = [rowOk1, rowOk2].map (fun r => REQUIRED.map (fun f => (f.1, csvCell (r.get f.1)))) :=
  c5_roundtrip_schema_columns_only "a.csv" [rowOk1, rowOk2] (by decide)

/-- `step1Row` leaves the row id untouched. -/
lemma step1Row_id (b : Val) (r : Row) : (step1Row b r).id = r.id := by
  unfold step1Row
  split <;> rfl

/-- `step1Row` leaves `error_reason` untouched. -/
lemma step1Row_error_reason (b : Val) (r : Row) :
    (step1Row b r).error_reason = r.error_reason := by
  unfold step1Row
  split <;> rfl

/-- `step1Row` leaves `batch_id` untouched. -/
lemma step1Row_batch_id (b : Val) (r : Row) : (step1Row b r).batch_id = r.batch_id := by
  unfold step1Row
  split <;> rfl

/-- `step1Row` blocks exactly the rows of the batch. -/
lemma step1Row_status (b : Val) (r : Row) :
    (r.batch_id = some b → (step1Row b r).status = some (Val.s "ERROR")) ∧
    (r.batch_id ≠ some b → step1Row b r = r) := by
  constructor
  · intro h
    unfold step1Row
    rw [if_pos h]
  · intro h
    unfold step1Row
    rw [if_neg h]

/-- C7: the two-step status reconciler. (1) If blocking the batch fails, the
table is left untouched and step 2 is never attempted. (2) With no truthy
failing row id, only step 1 runs: every row of the batch gets status ERROR,
no `error_reason` is touched. (3) Step 1 in isolation never touches
`error_reason` and rewrites exactly the batch's rows. (4) When both updates
succeed, the failing row gets status ERROR plus the reason, every other row's
`error_reason` is unchanged, batch rows get status ERROR, and rows outside
the batch other than the failing row are untouched. (5) If the reasoned
update fails but the bare fallback succeeds, no `error_reason` is written
anywhere. (6) Consequently, starting from a table with no error reasons,
afterwards exactly the designated failing row carries a non-null
`error_reason`. -/
theorem c7_two_step_reconciler (env : MarkEnv) (bid : Val) (fid : Option Val)
    (reason : String) (db : List Row) :
    (env.step1_ok = false →
      mark_batch_error_row_owned env bid fid reason db = db) ∧
    (env.step1_ok = true → truthy fid = false →
      mark_batch_error_row_owned env bid fid reason db = db.map (step1Row bid)) ∧
    (∀ r : Row, (step1Row bid r).error_reason = r.error_reason ∧
      (r.batch_id = some bid → (step1Row bid r).status = some (Val.s "ERROR")) ∧
      (r.batch_id ≠ some bid → step1Row bid r = r)) ∧
    (env.step1_ok = true → truthy fid = true → env.reason_ok = true →
      List.Forall₂ (fun r r' =>
        r'.id = r.id ∧
        (r.id = fid → r'.status = some (Val.s "ERROR") ∧
          r'.error_reason = some (Val.s reason)) ∧
        (r.id ≠ fid → r'.error_reason = r.error_reason) ∧
        (r.batch_id = some bid → r'.status = some (Val.s "ERROR")) ∧
        (r.batch_id ≠ some bid → r.id ≠ fid → r' = r))
        db (mark_batch_error_row_owned env bid fid reason db)) ∧
    (env.step1_ok = true → truthy fid = true → env.reason_ok = false →
      env.fallback_ok = true →
      List.Forall₂ (fun r r' =>
        r'.error_reason = r.error_reason ∧
        ((r.batch_id = some bid ∨ r.id = fid) → r'.status = some (Val.s "ERROR")) ∧
        (r.batch_id ≠ some bid → r.id ≠ fid → r' = r))
        db (mark_batch_error_row_owned env bid fid reason db)) ∧
    (env.step1_ok = true → truthy fid = true → env.reason_ok = true →
      (∀ r ∈ db, r.error_reason = none) →
      ∀ r' ∈ mark_batch_error_row_owned env bid fid reason db,
        (r'.error_reason ≠ none ↔ r'.id = fid)) := by
  refine ⟨?_, ?_, ?_, ?_, ?_, ?_⟩
  · intro h
    simp [mark_batch_error_row_owned, h]
  · intro h1 h2
    simp [mark_batch_error_row_owned, h1, h2]
  · intro r
    exact ⟨step1Row_error_reason bid r, (step1Row_status bid r).1, (step1Row_status bid r).2⟩
  · intro h1 h2 h3
    have hM : mark_batch_error_row_owned env bid fid reason db
        = db.map (fun r =>
            if (step1Row bid r).id = fid then
              { step1Row bid r with status := some (Val.s "ERROR"), error_reason := some (Val.s reason) }
            else step1Row bid r) := by
      simp [mark_batch_error_row_owned, h1, h2, h3, List.map_map, Function.comp]
    rw [hM, List.forall₂_map_right_iff, List.forall₂_same]
    intro r hr
    by_cases hid : r.id = fid
    · have hcond : (step1Row bid r).id = fid := by rw [step1Row_id]; exact hid
      rw [if_pos hcond]
      exact ⟨by simp [step1Row_id], fun _ => ⟨by simp, by simp⟩,
        fun h => absurd hid h, fun _ => by simp, fun _ h => absurd hid h⟩
    · have hcond : ¬ (step1Row bid r).id = fid := by rw [step1Row_id]; exact hid
      rw [if_neg hcond]
      exact ⟨step1Row_id bid r, fun h => absurd h hid,
        fun _ => step1Row_error_reason bid r, (step1Row_status bid r).1,
        fun hb _ => (step1Row_status bid r).2 hb⟩
  · intro h1 h2 h3 h4
    have hM : mark_batch_error_row_owned env bid fid reason db
        = db.map (fun r =>
            if (step1Row bid r).id = fid then
              { step1Row bid r with status := some (Val.s "ERROR") }
            else step1Row bid r) := by
      simp [mark_batch_error_row_owned, h1, h2, h3, h4, List.map_map, Function.comp]
    rw [hM, List.forall₂_map_right_iff, List.forall₂_same]
    intro r hr
    by_cases hid : r.id = fid
    · have hcond : (step1Row bid r).id = fid := by rw [step1Row_id]; exact hid
      rw [if_pos hcond]
      exact ⟨by simp [step1Row_error_reason], fun _ => by simp, fun _ h => absurd hid h⟩
    · have hcond : ¬ (step1Row bid r).id = fid := by rw [step1Row_id]; exact hid
      rw [if_neg hcond]
      refine ⟨step1Row_error_reason bid r, ?_, fun hb _ => (step1Row_status bid r).2 hb⟩
      intro hor
      rcases hor with hb | hi
      · exact (step1Row_status bid r).1 hb
      · exact absurd hi hid
  · intro h1 h2 h3 hnone r' hr'
    have hM : mark_batch_error_row_owned env bid fid reason db
        = db.map (fun r =>
            if (step1Row bid r).id = fid then
              { step1Row bid r with status := some (Val.s "ERROR"), error_reason := some (Val.s reason) }
            else step1Row bid r) := by
      simp [mark_batch_error_row_owned, h1, h2, h3, List.map_map, Function.comp]
    rw [hM] at hr'
    obtain ⟨r, hr, hre⟩ := List.mem_map.mp hr'
    by_cases hid : r.id = fid
    · have hcond : (step1Row bid r).id = fid := by rw [step1Row_id]; exact hid
      rw [if_pos hcond] at hre
      subst hre
      constructor
      · intro _
        simp [step1Row_id, hid]
      · intro _
        simp
    · have hcond : ¬ (step1Row bid r).id = fid := by rw [step1Row_id]; exact hid
      rw [if_neg hcond] at hre
      subst hre
      constructor
      · intro hcon
        rw [step1Row_error_reason] at hcon
        exact absurd (hnone r hr) hcon
      · intro hcon
        rw [step1Row_id] at hcon
        exact absurd hcon hid

/-- A reconciler environment in which every remote update succeeds. -/
def envMarkOk : MarkEnv := { step1_ok := true, reason_ok := true, fallback_ok := true }

/-- A three-row remote table: two rows in batch `B1`, one in `B2`. -/
def dbThree : List Row :=
  [{ id := some (.i 1), batch_id := some (.s "B1"), status := some (.s "READY") },
   { id := some (.i 2), batch_id := some (.s "B1"), status := some (.s "READY") },
   { id := some (.i 3), batch_id := some (.s "B2"), status := some (.s "READY") }]

/-- A concrete instance of C7: after reconciling batch `B1` with failing row
id 2, exactly that row carries a non-null `error_reason`. -/
theorem c7_two_step_reconciler_witness :
    ∀ r' ∈ mark_batch_error_row_owned envMarkOk (Val.s "B1") (some (Val.i 2))
        "qty must be 1..999" dbThree,
      (r'.error_reason ≠ none ↔ r'.id = some (Val.i 2)) :=
  (c7_two_step_reconciler envMarkOk (Val.s "B1") (some (Val.i 2))
      "qty must be 1..999" dbThree).2.2.2.2.2 rfl (by decide) rfl (by decide)
